import Mathlib

/-!
Verification development for the per-work-item execution engine of
`src/time_history_analysis.py` (NRSA_Updated).

The Python worker is embedded shallowly:

* Machine floats are modelled as rationals (`ℚ`); division is the total
  rational division.
* The three coordinator-owned shared-memory segments are modelled by an
  environment record that already holds their copied contents; the
  successful attach/copy/close sequence of lines 87-96 is logged as a
  list of attached segment names.
* The externally supplied material callback and the two solver back-ends
  (`newmark_solver`, `ops_solver`) are oracle functions in the
  environment returning `Except PyError ...`; a Python exception raised
  inside them is the `.error` case.
* Every observable effect of one worker invocation — queue messages,
  solver back-end invocations (with the exact parameter tuple passed),
  and file writes — is accumulated in a `RunLog` in program order.
* The outer wrapper `time_history_analysis` (lines 18-27), which catches
  any exception and posts a fatal `{'d': (error, tb)}` message, is
  `runItem`; the body `_time_history_analysis` (lines 29-185) is
  `innerRun`.
-/

namespace NRSA

/-- Exception classes observable from the worker. `sdof` is the
repository's `SDOFError`; `typeError` is Python's `TypeError` (raised by
`fv_factor * Ti` when `Ti` is `None`, line 120); `other` covers any other
exception raised by an oracle (material callback or solver back-end). -/
inductive PyError where
  | sdof (msg : String)
  | typeError
  | other (msg : String)
deriving DecidableEq, Repr

/-- The OpenSees-style material description returned by the
material callback, a mapping from material-kind name to a numeric
parameter tuple (`dict[str, tuple | float]` in the source). -/
abbrev MatParas := List (String × List ℚ)

/-- The scalar summary part of a solver back-end's return value
(`res: dict[str, float]` with the `converge` flag, lines 123, 129, 141,
168-169).  The twelve-channel time series `res_th` is not inspected by
the engine beyond being stacked and saved, so it is abstracted into the
`timeSeriesNpy` write event. -/
structure SolverRes where
  converge : Bool
  maxDisp : ℚ
  maxVel : ℚ
  maxAccel : ℚ
  Ec : ℚ
  Ev : ℚ
  maxReaction : ℚ
  CD : ℚ
  CPD : ℚ
  resDisp : ℚ
deriving DecidableEq, Repr

/-- The positional parameter tuple `solver_paras = (Ti, th, dt,
mat_paras, uy, fv_duration, scaling_factor, P, height, damping, mass)`
built on line 121 and passed verbatim to every back-end. -/
structure SolverParas where
  Ti : ℚ
  th : List ℚ
  dt : ℚ
  mat_paras : MatParas
  uy : ℚ
  fv_duration : ℚ
  scaling_factor : ℚ
  P : ℚ
  height : ℚ
  damping : ℚ
  mass : ℚ
deriving DecidableEq, Repr

/-- The slice `solver_paras[3:]` that forms the payload of the non-convergence warning
message `{'b': (GM_name, Ti, solver_paras[3:])}` (line 144). -/
structure WarnTail where
  mat_paras : MatParas
  uy : ℚ
  fv_duration : ℚ
  scaling_factor : ℚ
  P : ℚ
  height : ℚ
  damping : ℚ
  mass : ℚ
deriving DecidableEq, Repr

/-- Slice `solver_paras[3:]` of the back-end parameter tuple. -/
def SolverParas.tail (sp : SolverParas) : WarnTail :=
  { mat_paras := sp.mat_paras, uy := sp.uy, fv_duration := sp.fv_duration,
    scaling_factor := sp.scaling_factor, P := sp.P, height := sp.height,
    damping := sp.damping, mass := sp.mass }

/-- One row of the per-ground-motion summary table (columns of line 98;
values assigned on lines 169-177).  `solving_converge` is the flag of
line 105/143. -/
structure Row where
  T : ℚ
  E : ℚ
  Fy : ℚ
  uy : ℚ
  Sa : ℚ
  R : ℚ
  miu : ℚ
  maxDisp : ℚ
  maxVel : ℚ
  maxAccel : ℚ
  Ec : ℚ
  Ev : ℚ
  maxReaction : ℚ
  CD : ℚ
  CPD : ℚ
  resDisp : ℚ
  solving_converge : ℕ
deriving DecidableEq, Repr

/-- The `unconverged_res` diagnostic document of lines 147-161, written
to the constant path `warnings/c.json`. -/
structure DiagRecord where
  period : ℚ
  ground_motion : String
  dt : ℚ
  mat_paras : MatParas
  uy : ℚ
  fv_duration : ℚ
  scaling_factor : ℚ
  P : ℚ
  height : ℚ
  damping : ℚ
  mass : ℚ
  E : ℚ
  Fy : ℚ
deriving DecidableEq, Repr

/-- Messages posted on the coordinator queue.  `cancel` is `{'e': ...}`
(line 107), `warning` is `{'b': (GM_name, Ti, solver_paras[3:])}` (line
144), `success` is `{'a': (GM_name, num_ana, 1, None, solving_converge,
start_time, end_time, None)}` (line 185, wall-clock times omitted), and
`fatal` is `{'d': (error, tb)}` posted by the outer wrapper (line 26; the
formatted traceback accompanies the error object). -/
inductive Msg where
  | cancel (text : String)
  | warning (gm : String) (Ti : ℚ) (tail : WarnTail)
  | success (gm : String) (num_ana : ℕ) (delta : ℕ) (solving_converge : ℕ)
  | fatal (e : PyError)
deriving DecidableEq, Repr

/-- Terminal messages are success, fatal and cancellation; a warning is
posted in addition to (never instead of) a terminal message. -/
def Msg.isTerminal : Msg → Bool
  | .warning .. => false
  | _ => true

/-- File writes performed by one worker invocation, in program order.
`diagnostic` is the `warnings/c.json` dump (line 165, constant file
name), `summaryCsv` is the full rewrite of `{GM_name}.csv` with the
worker-local table (line 182), `timeSeriesNpy` is `{GM_name}.npy`
(line 183).  All three happen between `lock.acquire()` and
`lock.release()` in the source. -/
inductive FileWrite where
  | diagnostic (d : DiagRecord)
  | summaryCsv (gm : String) (rows : List Row)
  | timeSeriesNpy (gm : String)
deriving DecidableEq, Repr

/-- Everything observable about one worker invocation. -/
structure RunLog where
  attached : List String
  msgs : List Msg
  invocations : List (String × SolverParas)
  writes : List FileWrite
  result : Option Row
deriving DecidableEq, Repr

/-- One work item: the per-item arguments of `_time_history_analysis`
(lines 29-57).  `stop_set` is the value `stop_event.is_set()` reads at
the single poll point (line 106). -/
structure WorkItem where
  GM_name : String
  Ti : Option ℚ
  material_paras : List ℚ
  damping : ℚ
  thetaD : ℚ
  mass : ℚ
  height : ℚ
  scaling_factor : ℚ
  dt : ℚ
  fv_duration : ℚ
  fv_factor : ℚ
  solver : String
  stop_set : Bool

/-- The worker's environment: contents of the three coordinator-owned
shared-memory segments (already copied), the spectral interpolator
`get_Sa = interp1d(periods, Sa_ls, ...)` of line 93 (abstracted as a
total function, since `interp1d` with `fill_value='extrapolate'` never
raises), the material callback and the two solver back-ends. -/
structure Env where
  periods : List ℚ
  Sa_ls : List ℚ
  th : List ℚ
  get_Sa : ℚ → ℚ
  material : Option ℚ → ℚ → Option ℚ → List ℚ → Except PyError (MatParas × ℚ × ℚ)
  newmark : SolverParas → Except PyError SolverRes
  ops : SolverParas → Except PyError SolverRes

/-- The three segments attached (and copied, then closed) on lines
87-96, before the stop poll of line 106. -/
def attachedSegments : List String := ["periods_shm", "Sa_shm", "gm_shm"]

/-- Text of the cancellation message of line 107. -/
def cancelText : String := "中断计算"

/-- The parameter tuple of line 121 as built from the work item and the
material-callback output: `uy = Fy / E` (line 115), `P` from `thetaD`
(lines 116-119), and `fv_duration = max(fv_duration, fv_factor * Ti)`
computed on line 120 before any back-end is invoked. -/
def solverParasOf (env : Env) (w : WorkItem) (t : ℚ) (m : MatParas)
    (Fy E : ℚ) : SolverParas :=
  { Ti := t, th := env.th, dt := w.dt, mat_paras := m,
    uy := Fy / E,
    fv_duration := max w.fv_duration (w.fv_factor * t),
    scaling_factor := w.scaling_factor,
    P := if w.thetaD = 0 then 0 else w.thetaD * E * w.height,
    height := w.height, damping := w.damping, mass := w.mass }

/-- Lines 125-138: selection and invocation of the back-ends.  Returns
the back-ends invoked (in order, each with the parameter tuple it
received) and the outcome.  For `"auto"` the loop of lines 126-130 tries
`newmark` then `ops_solver`, breaking at the first convergent result; an
exception from a back-end propagates out of the loop at once.  An
unknown name raises `SDOFError('Wrong solver name: ...')` (line 138)
with no back-end invoked. -/
def dispatchSolver (env : Env) (solver : String) (sp : SolverParas) :
    List (String × SolverParas) × Except PyError SolverRes :=
  if solver = "auto" then
    match env.newmark sp with
    | .error e => ([("newmark", sp)], .error e)
    | .ok r1 =>
      if r1.converge then ([("newmark", sp)], .ok r1)
      else
        match env.ops sp with
        | .error e => ([("newmark", sp), ("ops_solver", sp)], .error e)
        | .ok r2 => ([("newmark", sp), ("ops_solver", sp)], .ok r2)
  else if solver = "OPS" then ([("ops_solver", sp)], env.ops sp)
  else if solver = "Newmark-Newton" then ([("newmark", sp)], env.newmark sp)
  else ([], .error (.sdof ("Wrong solver name: " ++ solver)))

/-- The summary row built on lines 167-177: `results.loc[row] = res`
fills the response columns from the solver result, then `T, E, Fy, uy,
Sa, R, miu, solving_converge` are overwritten with the expressions of
lines 170-177 (`uy` is recomputed as `Fy / E` on line 173; `miu` divides
by the `uy` of line 115, passed here as `uy115`). -/
def mkRow (w : WorkItem) (t Sa Fy E uy115 : ℚ) (res : SolverRes)
    (sc : ℕ) : Row :=
  { T := t, E := E, Fy := Fy, uy := Fy / E, Sa := Sa,
    R := w.mass * Sa * 9800 / Fy,
    miu := res.maxDisp / uy115,
    maxDisp := res.maxDisp, maxVel := res.maxVel, maxAccel := res.maxAccel,
    Ec := res.Ec, Ev := res.Ev, maxReaction := res.maxReaction,
    CD := res.CD, CPD := res.CPD, resDisp := res.resDisp,
    solving_converge := sc }

/-- The `unconverged_res` document of lines 147-161. -/
def mkDiag (w : WorkItem) (t : ℚ) (sp : SolverParas) (m : MatParas)
    (Fy E : ℚ) : DiagRecord :=
  { period := t, ground_motion := w.GM_name, dt := w.dt, mat_paras := m,
    uy := sp.uy, fv_duration := sp.fv_duration,
    scaling_factor := w.scaling_factor, P := sp.P, height := w.height,
    damping := w.damping, mass := w.mass, E := E, Fy := Fy }

/-- The empty log after the shared-memory fetches of lines 87-96. -/
def log0 : RunLog :=
  { attached := attachedSegments, msgs := [], invocations := [],
    writes := [], result := none }

/-- Lines 122-185, entered with `Ti = t` known to be a number: dispatch,
convergence guard (lines 141-166: warning message then diagnostic dump,
both only on non-convergence), row assembly (167-177), the two persisted
artifacts under the lock (181-184), and the terminal success message
(185).  The bare `except:` of line 139 turns any exception escaping the
dispatch block into `SDOFError('Solver error!')`. -/
def finishItem (env : Env) (w : WorkItem) (t : ℚ) (m : MatParas)
    (Fy E : ℚ) : RunLog × Option PyError :=
  let sp := solverParasOf env w t m Fy E
  let d := dispatchSolver env w.solver sp
  match d.2 with
  | .error _ => ({ log0 with invocations := d.1 }, some (.sdof ("Solver error!")))
  | .ok res =>
    let sc : ℕ := if res.converge then 1 else 0
    let preMsgs : List Msg :=
      if res.converge then [] else [Msg.warning w.GM_name t sp.tail]
    let preWrites : List FileWrite :=
      if res.converge then [] else [FileWrite.diagnostic (mkDiag w t sp m Fy E)]
    let row := mkRow w t (env.get_Sa t) Fy E sp.uy res sc
    ({ attached := attachedSegments,
       msgs := preMsgs ++ [Msg.success w.GM_name 1 1 sc],
       invocations := d.1,
       writes := preWrites ++
         [FileWrite.summaryCsv w.GM_name [row], FileWrite.timeSeriesNpy w.GM_name],
       result := some row }, none)

/-- The body `_time_history_analysis` (lines 29-185).  Returns the accumulated
log together with the exception escaping the body, if any.  Order of
events: shared-memory fetch (87-96), stop poll (106), pause wait (109, a
blocking wait with no observable effect once released), spectral lookup
(110-113: `Sa = get_Sa(Ti)` when `Ti` is given, else `None`), material
callback (114), then line 120 — where `max(fv_duration, fv_factor * Ti)`
raises `TypeError` if `Ti` is `None` — and `finishItem`. -/
def innerRun (env : Env) (w : WorkItem) : RunLog × Option PyError :=
  if w.stop_set then
    ({ log0 with msgs := [Msg.cancel cancelText] }, none)
  else
    match env.material w.Ti w.mass (w.Ti.map env.get_Sa) w.material_paras with
    | .error e => (log0, some e)
    | .ok (m, Fy, E) =>
      match w.Ti with
      | none => (log0, some PyError.typeError)
      | some t => finishItem env w t m Fy E

/-- The wrapper `time_history_analysis` (lines 18-27): runs the body and, if any
exception escapes it, posts a single fatal message `{'d': (error, tb)}`
and returns without re-raising. -/
def runItem (env : Env) (w : WorkItem) : RunLog :=
  match innerRun env w with
  | (log, none) => log
  | (log, some e) => { log with msgs := log.msgs ++ [Msg.fatal e] }

/-! Persisted summary state across work items.

The per-ground-motion summary artifact `{GM_name}.csv` is modelled as a
map from ground-motion name to the list of rows currently stored in the
file.  `to_csv` (line 182) writes the worker-local `results` table as the
entire file contents; diagnostic dumps and `.npy` arrays live at other
paths and leave the summary map unchanged. -/

/-- Contents of every per-ground-motion summary file. -/
abbrev SummaryFS := String → List Row

/-- Effect of a single file write on the summary files. -/
def applyWrite (fs : SummaryFS) : FileWrite → SummaryFS
  | .summaryCsv gm rows => fun g => if g = gm then rows else fs g
  | _ => fs

/-- Effect of one worker invocation's writes, in program order. -/
def applyRun (fs : SummaryFS) (log : RunLog) : SummaryFS :=
  log.writes.foldl applyWrite fs

/-- Sequential (lock-serialized) execution of a list of work items,
threading the persisted summary files through. -/
def runBatch (env : Env) (ws : List WorkItem) (fs : SummaryFS) : SummaryFS :=
  ws.foldl (fun f w => applyRun f (runItem env w)) fs

/-- The empty file system: no summary file has any row yet. -/
def emptyFS : SummaryFS := fun _ => []

/-! Concrete fixtures for witnesses and counterexamples. -/

/-- A concrete material description, as in the repository's examples:
`{'Steel01': (Fy, E, alpha)}`. -/
def matParas0 : MatParas := [("Steel01", [4900, 49, 1/50])]

/-- A convergent solver outcome. -/
def resConv : SolverRes :=
  { converge := true, maxDisp := 250, maxVel := 30, maxAccel := 5,
    Ec := 12, Ev := 7, maxReaction := 4900, CD := 3, CPD := 2, resDisp := 1 }

/-- A non-convergent solver outcome. -/
def resBad : SolverRes :=
  { converge := false, maxDisp := 900, maxVel := 90, maxAccel := 9,
    Ec := 99, Ev := 9, maxReaction := 9000, CD := 9, CPD := 9, resDisp := 9 }

/-- A concrete environment whose material callback returns
`(matParas0, Fy = 4900, E = 49)` and whose back-ends both converge. -/
def env0 : Env :=
  { periods := [1/10, 1/2, 1, 2], Sa_ls := [2/5, 2/5, 3/10, 1/5],
    th := [0, 1/100, -1/50],
    get_Sa := fun _ => 2/5,
    material := fun _ _ _ _ => .ok (matParas0, 4900, 49),
    newmark := fun _ => .ok resConv,
    ops := fun _ => .ok resConv }

/-- Like `env0` but the `newmark` back-end raises. -/
def envRaise : Env :=
  { env0 with newmark := fun _ => .error (.other ("boom")) }

/-- Like `env0` but both back-ends return without converging. -/
def envBad : Env :=
  { env0 with newmark := fun _ => .ok resBad, ops := fun _ => .ok resBad }

/-- A concrete work item (period 1/2 s, ground motion `"gm"`). -/
def exW1 : WorkItem :=
  { GM_name := "gm", Ti := some (1/2), material_paras := [1/2, 1/50],
    damping := 1/20, thetaD := 0, mass := 1000, height := 1,
    scaling_factor := 1, dt := 1/100, fv_duration := 0, fv_factor := 10,
    solver := "Newmark-Newton", stop_set := false }

/-- A second work item for the same ground motion, different period. -/
def exW2 : WorkItem := { exW1 with Ti := some 1 }

/-! Helper lemmas. -/

/-- The outer wrapper changes only the message list. -/
lemma runItem_result (env : Env) (w : WorkItem) :
    (runItem env w).result = (innerRun env w).1.result := by
  rcases h : innerRun env w with ⟨log, _ | e⟩ <;> simp [runItem, h]

lemma runItem_invocations (env : Env) (w : WorkItem) :
    (runItem env w).invocations = (innerRun env w).1.invocations := by
  rcases h : innerRun env w with ⟨log, _ | e⟩ <;> simp [runItem, h]

lemma runItem_writes (env : Env) (w : WorkItem) :
    (runItem env w).writes = (innerRun env w).1.writes := by
  rcases h : innerRun env w with ⟨log, _ | e⟩ <;> simp [runItem, h]

/-- Every back-end invocation recorded by the dispatcher received
exactly the parameter tuple the dispatcher was given. -/
lemma dispatchSolver_inv_sp (env : Env) (s : String) (sp : SolverParas) :
    ∀ p ∈ (dispatchSolver env s sp).1, p.2 = sp := by
  intro p hp
  unfold dispatchSolver at hp
  repeat' split at hp
  all_goals simp at hp
  all_goals (obtain rfl | rfl := hp) <;> rfl

/-! Claims. -/

/-- Claim C1, counterexample: Two work items targeting the same ground
motion `"gm"` both complete (each records a row), yet the persisted
summary table for `"gm"` afterwards holds a single row, not one row per
completed item: each invocation rewrites the file with its own fresh
one-row table. -/
theorem summary_two_items_one_row :
    (runItem env0 exW1).result.isSome = true ∧
    (runItem env0 exW2).result.isSome = true ∧
    exW1.GM_name = "gm" ∧ exW2.GM_name = "gm" ∧
    ((runBatch env0 [exW1, exW2] emptyFS) "gm").length = 1 := by
  decide

/-- Claim C1, amended: After a work item completes, the persisted summary
file for its ground motion contains exactly the one row recorded by that
item, whatever the file held before: each update fully rewrites the file
with the worker-local single-row table, so earlier items' rows for the
same ground motion are lost rather than accumulated. -/
theorem summary_file_holds_last_item_row (env : Env) (w : WorkItem)
    (fs : SummaryFS) (row : Row) (h : (runItem env w).result = some row) :
    applyRun fs (runItem env w) w.GM_name = [row] := by
  by_cases hstop : w.stop_set
  · simp [runItem, innerRun, hstop, log0] at h
  · rcases hTi : w.Ti with _ | t
    · rcases hm : env.material none w.mass none w.material_paras with _ | ⟨m, Fy, E⟩ <;>
        simp [runItem, innerRun, hstop, hTi, hm, log0] at h
    · rcases hm : env.material (some t) w.mass (some (env.get_Sa t)) w.material_paras with
        _ | ⟨m, Fy, E⟩
      · simp [runItem, innerRun, hstop, hTi, hm, log0] at h
      · rcases hd : (dispatchSolver env w.solver (solverParasOf env w t m Fy E)).2 with
          _ | res
        · simp [runItem, innerRun, finishItem, hstop, hTi, hm, hd, log0] at h
        · by_cases hc : res.converge
          · simp [runItem, innerRun, finishItem, applyRun, applyWrite,
              hstop, hTi, hm, hd, hc] at h ⊢
            simp [h]
          · simp [runItem, innerRun, finishItem, applyRun, applyWrite,
              hstop, hTi, hm, hd, hc] at h ⊢
            simp [h]

/-- Witness for `summary_file_holds_last_item_row` at a concrete input. -/
theorem summary_file_holds_last_item_row_witness :
    applyRun emptyFS (runItem env0 exW1) exW1.GM_name =
      [mkRow exW1 (1/2) (2/5) 4900 49 (4900/49) resConv 1] :=
  summary_file_holds_last_item_row env0 exW1 emptyFS _ rfl

/-- Claim C2, counterexample: A work item whose stop signal is set at
entry does emit exactly one cancellation message, but it has already
attached to the three shared-memory segments: the stop signal is polled
on line 106, after the shared-input fetch of lines 87-96, so "attaches
to no shared-memory segment" fails. -/
theorem stop_item_still_attaches_shm :
    (runItem env0 { exW1 with stop_set := true }).msgs =
      [Msg.cancel cancelText] ∧
    (runItem env0 { exW1 with stop_set := true }).attached ≠ [] := by
  constructor
  · decide
  · decide

/-- Claim C2, amended: For every work item whose stop signal is set at the
poll point, the engine emits exactly one cancellation message and
returns having invoked no back-end, written no summary, time-series or
diagnostic artifact, posted no other message and recorded no row — but
only after attaching to (copying and closing) the three shared-memory
segments, since the stop signal is polled after the shared-input fetch. -/
theorem stop_set_cancel_only (env : Env) (w : WorkItem)
    (h : w.stop_set = true) :
    runItem env w =
      { attached := attachedSegments, msgs := [Msg.cancel cancelText],
        invocations := [], writes := [], result := none } := by
  simp [runItem, innerRun, h, log0]

/-- Witness for `stop_set_cancel_only` at a concrete input. -/
theorem stop_set_cancel_only_witness :
    runItem env0 { exW1 with stop_set := true } =
      { attached := attachedSegments, msgs := [Msg.cancel cancelText],
        invocations := [], writes := [], result := none } :=
  stop_set_cancel_only env0 { exW1 with stop_set := true } rfl

/-- Claim C3: For `solver = "auto"` with both back-ends returning without
raising: the dispatcher invokes the back-ends in the declared priority
order — `newmark` first, then `ops_solver` — stopping at the first
convergent result; if the first back-end converges only it is invoked
and its result is retained, and if it does not converge the second one
is invoked and its result (the last attempted) is retained whether or
not it converges. -/
theorem auto_priority_first_convergent (env : Env) (sp : SolverParas)
    (r1 r2 : SolverRes) (h1 : env.newmark sp = .ok r1)
    (h2 : env.ops sp = .ok r2) :
    (r1.converge = true →
      dispatchSolver env ("auto") sp = ([("newmark", sp)], .ok r1)) ∧
    (r1.converge = false →
      dispatchSolver env ("auto") sp =
        ([("newmark", sp), ("ops_solver", sp)], .ok r2)) := by
  constructor <;> intro hc <;> simp [dispatchSolver, h1, h2, hc]

/-- Witness for `auto_priority_first_convergent` at a concrete input:
in `envBad` neither back-end converges, so both are invoked and the
second result is the one retained. -/
theorem auto_priority_first_convergent_witness :
    dispatchSolver envBad ("auto") (solverParasOf envBad exW1 (1/2) matParas0 4900 49) =
      ([("newmark", solverParasOf envBad exW1 (1/2) matParas0 4900 49),
        ("ops_solver", solverParasOf envBad exW1 (1/2) matParas0 4900 49)],
        .ok resBad) :=
  (auto_priority_first_convergent envBad _ resBad resBad rfl rfl).2 rfl

/-- Claim C4: Requesting a solver identifier outside the registered set
`{"auto", "OPS", "Newmark-Newton"}` raises `SDOFError('Wrong solver
name: ...')` before any back-end is invoked (the dispatcher records no
invocation), and the item posts exactly one message: the fatal message
(re-wrapped by the bare `except:` as `SDOFError('Solver error!')`) — no
success and no warning message, and no artifact is written. -/
theorem unknown_solver_fatal_before_backend (env : Env) (w : WorkItem)
    (t : ℚ) (m : MatParas) (Fy E : ℚ)
    (hstop : w.stop_set = false) (hTi : w.Ti = some t)
    (hm : env.material (some t) w.mass (some (env.get_Sa t)) w.material_paras =
      .ok (m, Fy, E))
    (ha : w.solver ≠ "auto") (ho : w.solver ≠ "OPS")
    (hn : w.solver ≠ "Newmark-Newton") :
    dispatchSolver env w.solver (solverParasOf env w t m Fy E) =
      ([], .error (.sdof ("Wrong solver name: " ++ w.solver))) ∧
    (runItem env w).invocations = [] ∧
    (runItem env w).msgs = [Msg.fatal (.sdof ("Solver error!"))] ∧
    (runItem env w).writes = [] := by
  have hd : dispatchSolver env w.solver (solverParasOf env w t m Fy E) =
      ([], .error (.sdof ("Wrong solver name: " ++ w.solver))) := by
    simp [dispatchSolver, ha, ho, hn]
  refine ⟨hd, ?_, ?_, ?_⟩ <;>
    simp [runItem, innerRun, finishItem, hstop, hTi, hm, hd, log0]

/-- Witness for `unknown_solver_fatal_before_backend`: solver
`"Bogus"`. -/
theorem unknown_solver_fatal_before_backend_witness :
    dispatchSolver env0 ("Bogus") (solverParasOf env0 { exW1 with solver := "Bogus" } (1/2) matParas0 4900 49) =
      ([], .error (.sdof ("Wrong solver name: " ++ "Bogus"))) ∧
    (runItem env0 { exW1 with solver := "Bogus" }).invocations = [] ∧
    (runItem env0 { exW1 with solver := "Bogus" }).msgs =
      [Msg.fatal (.sdof ("Solver error!"))] ∧
    (runItem env0 { exW1 with solver := "Bogus" }).writes = [] :=
  unknown_solver_fatal_before_backend env0 { exW1 with solver := "Bogus" }
    (1/2) matParas0 4900 49 rfl rfl rfl
    (by decide) (by decide) (by decide)

/-- Claim C5: Under `solver = "auto"`, an exception raised by the first
candidate back-end is not absorbed by the fallback ladder: `ops_solver`
is never invoked, and the item fails fatally (single fatal message,
wrapped as `SDOFError('Solver error!')` by the bare `except:`), with no
artifact written and no row recorded. -/
theorem auto_backend_exception_no_fallback (env : Env) (w : WorkItem)
    (t : ℚ) (m : MatParas) (Fy E : ℚ) (e : PyError)
    (hstop : w.stop_set = false) (hTi : w.Ti = some t)
    (hm : env.material (some t) w.mass (some (env.get_Sa t)) w.material_paras =
      .ok (m, Fy, E))
    (hs : w.solver = "auto")
    (hnm : env.newmark (solverParasOf env w t m Fy E) = .error e) :
    (runItem env w).invocations = [("newmark", solverParasOf env w t m Fy E)] ∧
    (runItem env w).msgs = [Msg.fatal (.sdof ("Solver error!"))] ∧
    (runItem env w).writes = [] ∧
    (runItem env w).result = none := by
  have hd : dispatchSolver env w.solver (solverParasOf env w t m Fy E) =
      ([("newmark", solverParasOf env w t m Fy E)], .error e) := by
    simp [dispatchSolver, hs, hnm]
  refine ⟨?_, ?_, ?_, ?_⟩ <;>
    simp [runItem, innerRun, finishItem, hstop, hTi, hm, hd, log0]

/-- Witness for `auto_backend_exception_no_fallback`: in `envRaise` the
`newmark` back-end raises for every input. -/
theorem auto_backend_exception_no_fallback_witness :
    (runItem envRaise { exW1 with solver := "auto" }).invocations =
      [("newmark", solverParasOf envRaise { exW1 with solver := "auto" } (1/2) matParas0 4900 49)] ∧
    (runItem envRaise { exW1 with solver := "auto" }).msgs =
      [Msg.fatal (.sdof ("Solver error!"))] ∧
    (runItem envRaise { exW1 with solver := "auto" }).writes = [] ∧
    (runItem envRaise { exW1 with solver := "auto" }).result = none :=
  auto_backend_exception_no_fallback envRaise { exW1 with solver := "auto" }
    (1/2) matParas0 4900 49 (.other ("boom")) rfl rfl rfl rfl rfl

/-- Claim C6: When the retained solver result reports non-convergence,
the engine: posts exactly one warning message carrying the ground-motion
name, the period and the parameter slice containing the material
description; writes the diagnostic document to the warnings
sub-location; still builds and persists the summary row with
`solving_converge = 0` together with the time-series artifact; and posts
the terminal success message — no exception is raised (no fatal message
appears). -/
theorem nonconvergence_warning_diag_row (env : Env) (w : WorkItem)
    (t : ℚ) (m : MatParas) (Fy E : ℚ)
    (invs : List (String × SolverParas)) (res : SolverRes)
    (hstop : w.stop_set = false) (hTi : w.Ti = some t)
    (hm : env.material (some t) w.mass (some (env.get_Sa t)) w.material_paras =
      .ok (m, Fy, E))
    (hd : dispatchSolver env w.solver (solverParasOf env w t m Fy E) =
      (invs, .ok res))
    (hc : res.converge = false) :
    (runItem env w).msgs =
      [Msg.warning w.GM_name t (solverParasOf env w t m Fy E).tail,
       Msg.success w.GM_name 1 1 0] ∧
    (runItem env w).writes =
      [FileWrite.diagnostic (mkDiag w t (solverParasOf env w t m Fy E) m Fy E),
       FileWrite.summaryCsv w.GM_name
         [mkRow w t (env.get_Sa t) Fy E (solverParasOf env w t m Fy E).uy res 0],
       FileWrite.timeSeriesNpy w.GM_name] ∧
    (runItem env w).result =
      some (mkRow w t (env.get_Sa t) Fy E (solverParasOf env w t m Fy E).uy res 0) := by
  have hd2 : (dispatchSolver env w.solver (solverParasOf env w t m Fy E)).2 =
      .ok res := by rw [hd]
  refine ⟨?_, ?_, ?_⟩ <;>
    simp [runItem, innerRun, finishItem, hstop, hTi, hm, hd2, hc, log0]

/-- Witness for `nonconvergence_warning_diag_row`: the `"OPS"` back-end
of `envBad` returns a non-convergent result. -/
theorem nonconvergence_warning_diag_row_witness :
    (runItem envBad { exW1 with solver := "OPS" }).msgs =
      [Msg.warning ("gm") (1/2)
        (solverParasOf envBad { exW1 with solver := "OPS" } (1/2) matParas0 4900 49).tail,
       Msg.success ("gm") 1 1 0] ∧
    (runItem envBad { exW1 with solver := "OPS" }).writes =
      [FileWrite.diagnostic
         (mkDiag { exW1 with solver := "OPS" } (1/2)
           (solverParasOf envBad { exW1 with solver := "OPS" } (1/2) matParas0 4900 49)
           matParas0 4900 49),
       FileWrite.summaryCsv ("gm")
         [mkRow { exW1 with solver := "OPS" } (1/2) (2/5) 4900 49
           (solverParasOf envBad { exW1 with solver := "OPS" } (1/2) matParas0 4900 49).uy
           resBad 0],
       FileWrite.timeSeriesNpy ("gm")] ∧
    (runItem envBad { exW1 with solver := "OPS" }).result =
      some (mkRow { exW1 with solver := "OPS" } (1/2) (2/5) 4900 49
        (solverParasOf envBad { exW1 with solver := "OPS" } (1/2) matParas0 4900 49).uy
        resBad 0) :=
  nonconvergence_warning_diag_row envBad { exW1 with solver := "OPS" }
    (1/2) matParas0 4900 49
    [("ops_solver", solverParasOf envBad { exW1 with solver := "OPS" } (1/2) matParas0 4900 49)]
    resBad rfl rfl rfl rfl rfl

/-- Claim C7: Every recorded summary row satisfies the defining formulas:
`uy = Fy / E` (lines 115 and 173), `R = mass * Sa * 9800 / Fy` (line
175) and `miu = maxDisp / uy` (line 176), where `maxDisp` is the
solver's maximum displacement and `Sa` the interpolated spectral
acceleration stored in the row. -/
theorem record_row_formulas (env : Env) (w : WorkItem) (row : Row)
    (h : (runItem env w).result = some row) :
    row.uy = row.Fy / row.E ∧
    row.R = w.mass * row.Sa * 9800 / row.Fy ∧
    row.miu = row.maxDisp / row.uy := by
  by_cases hstop : w.stop_set
  · simp [runItem, innerRun, hstop, log0] at h
  · rcases hTi : w.Ti with _ | t
    · rcases hm : env.material none w.mass none w.material_paras with _ | ⟨m, Fy, E⟩ <;>
        simp [runItem, innerRun, hstop, hTi, hm, log0] at h
    · rcases hm : env.material (some t) w.mass (some (env.get_Sa t)) w.material_paras with
        _ | ⟨m, Fy, E⟩
      · simp [runItem, innerRun, hstop, hTi, hm, log0] at h
      · rcases hd : (dispatchSolver env w.solver (solverParasOf env w t m Fy E)).2 with
          _ | res
        · simp [runItem, innerRun, finishItem, hstop, hTi, hm, hd, log0] at h
        · by_cases hc : res.converge <;>
            simp [runItem, innerRun, finishItem, hstop, hTi, hm, hd, hc, log0] at h <;>
            subst h <;>
            simp [mkRow, solverParasOf]

/-- Witness for `record_row_formulas` at a concrete input. -/
theorem record_row_formulas_witness :
    (mkRow exW1 (1/2) (2/5) 4900 49 (4900/49) resConv 1).uy =
      (mkRow exW1 (1/2) (2/5) 4900 49 (4900/49) resConv 1).Fy /
        (mkRow exW1 (1/2) (2/5) 4900 49 (4900/49) resConv 1).E ∧
    (mkRow exW1 (1/2) (2/5) 4900 49 (4900/49) resConv 1).R =
      exW1.mass * (mkRow exW1 (1/2) (2/5) 4900 49 (4900/49) resConv 1).Sa * 9800 /
        (mkRow exW1 (1/2) (2/5) 4900 49 (4900/49) resConv 1).Fy ∧
    (mkRow exW1 (1/2) (2/5) 4900 49 (4900/49) resConv 1).miu =
      (mkRow exW1 (1/2) (2/5) 4900 49 (4900/49) resConv 1).maxDisp /
        (mkRow exW1 (1/2) (2/5) 4900 49 (4900/49) resConv 1).uy :=
  record_row_formulas env0 exW1 _ rfl

/-- Claim C8: For every work item with a specified period, every back-end
invocation receives a free-vibration duration equal to
`max(fv_duration, fv_factor * Ti)`: the maximum is computed by the
dispatching code (line 120) before any back-end is invoked, so no
invocation can observe the unmaxed configured value. -/
theorem fv_duration_maxed_before_backend (env : Env) (w : WorkItem)
    (t : ℚ) (hTi : w.Ti = some t) :
    ((runItem env w).invocations.all
      fun p => decide (p.2.fv_duration = max w.fv_duration (w.fv_factor * t))) = true := by
  rw [List.all_eq_true]
  intro p hp
  rw [decide_eq_true_eq]
  rw [runItem_invocations] at hp
  by_cases hstop : w.stop_set
  · simp [innerRun, hstop, log0] at hp
  · rcases hm : env.material (some t) w.mass (some (env.get_Sa t)) w.material_paras with
      _ | ⟨m, Fy, E⟩
    · simp [innerRun, hstop, hTi, hm, log0] at hp
    · rcases hd : (dispatchSolver env w.solver (solverParasOf env w t m Fy E)).2 with
        _ | res
      · simp [innerRun, finishItem, hstop, hTi, hm, hd, log0] at hp
        rw [dispatchSolver_inv_sp env w.solver _ p hp]
        simp [solverParasOf]
      · by_cases hc : res.converge <;>
          simp [innerRun, finishItem, hstop, hTi, hm, hd, hc, log0] at hp <;>
          rw [dispatchSolver_inv_sp env w.solver _ p hp] <;>
          simp [solverParasOf]

/-- Witness for `fv_duration_maxed_before_backend` at a concrete
input. -/
theorem fv_duration_maxed_before_backend_witness :
    ((runItem env0 exW1).invocations.all
      fun p => decide (p.2.fv_duration =
        max exW1.fv_duration (exW1.fv_factor * (1/2)))) = true :=
  fv_duration_maxed_before_backend env0 exW1 (1/2) rfl

/-- Claim C9: Every worker invocation posts exactly one terminal message
(success, fatal or cancellation); all earlier messages, if any, are
warnings — the terminal message is always the last one posted, and any
exception escaping the body is converted into the single fatal message
by the outer wrapper, which returns without re-raising (the run function
is total). -/
theorem exactly_one_terminal_message (env : Env) (w : WorkItem) :
    ((runItem env w).msgs.filter Msg.isTerminal).length = 1 ∧
    (runItem env w).msgs.dropLast.filter Msg.isTerminal = [] := by
  by_cases hstop : w.stop_set
  · simp [runItem, innerRun, hstop, log0, Msg.isTerminal, List.dropLast]
  · rcases hTi : w.Ti with _ | t
    · rcases hm : env.material none w.mass none w.material_paras with _ | ⟨m, Fy, E⟩ <;>
        simp [runItem, innerRun, hstop, hTi, hm, log0, Msg.isTerminal, List.dropLast]
    · rcases hm : env.material (some t) w.mass (some (env.get_Sa t)) w.material_paras with
        _ | ⟨m, Fy, E⟩
      · simp [runItem, innerRun, hstop, hTi, hm, log0, Msg.isTerminal, List.dropLast]
      · rcases hd : (dispatchSolver env w.solver (solverParasOf env w t m Fy E)).2 with
          _ | res
        · simp [runItem, innerRun, finishItem, hstop, hTi, hm, hd, log0,
            Msg.isTerminal, List.dropLast]
        · by_cases hc : res.converge <;>
            simp [runItem, innerRun, finishItem, hstop, hTi, hm, hd, hc, log0,
              Msg.isTerminal, List.dropLast]

/-- Claim C10: A work item without a period (`Ti = None`) whose material
callback returns normally dies on line 120: `max(fv_duration,
fv_factor * Ti)` multiplies a float by `None`, raising `TypeError`
before any back-end is selected.  The item therefore ends with a single
fatal message, no back-end invocation, no artifact write and no
recorded row. -/
theorem period_none_typeerror_fatal (env : Env) (w : WorkItem)
    (m : MatParas) (Fy E : ℚ)
    (hstop : w.stop_set = false) (hTi : w.Ti = none)
    (hm : env.material none w.mass none w.material_paras = .ok (m, Fy, E)) :
    runItem env w =
      { attached := attachedSegments, msgs := [Msg.fatal PyError.typeError],
        invocations := [], writes := [], result := none } := by
  simp [runItem, innerRun, hstop, hTi, hm, log0]

/-- Witness for `period_none_typeerror_fatal` at a concrete input. -/
theorem period_none_typeerror_fatal_witness :
    runItem env0 { exW1 with Ti := none } =
      { attached := attachedSegments, msgs := [Msg.fatal PyError.typeError],
        invocations := [], writes := [], result := none } :=
  period_none_typeerror_fatal env0 { exW1 with Ti := none }
    matParas0 4900 49 rfl rfl rfl

end NRSA
